import Mathlib

/-!
Shallow embedding of the timestamp-to-sample translation and clock-slaving
core of `gst-libs/gst/audio/gstbaseaudiosink.c` (base class for audio sinks).

Machine integers are modelled as `Nat` (guint, guint64, GstClockTime) and
`Int` (gint, gint64, GstClockTimeDiff).  The sentinel value `-1`
(`GST_CLOCK_TIME_NONE` for `next_sample`, the resync marker for `avg_skew`)
is modelled as `Option.none` for the unsigned `next_sample` field and kept
as the literal `-1` for the signed `avg_skew` field, exactly as the C code
tests it.  C's `gint64` division truncates toward zero, which is `Int.tdiv`.
Unsigned 64-bit wrap-around is applied (`wrap64`) exactly where the C code
adds a signed quantity to an unsigned one.  External collaborators (the
concrete ring buffer, the pipeline clock, `gst_segment_to_running_time`,
`gst_ring_buffer_commit_full`, `gst_base_sink_wait_preroll`) enter as
explicit oracle inputs.
-/

/-- One second in nanoseconds (`GST_SECOND`). -/
def GST_SECOND : Nat := 1000000000

/-- Resync tolerance divisor from the source (`#define DIFF_TOLERANCE 2`). -/
def DIFF_TOLERANCE : Nat := 2

/-- `gst_util_uint64_scale_int val num denom = val * num / denom`, computed
without intermediate overflow in C; exact on `Nat`. -/
def gst_util_uint64_scale_int (val num denom : Nat) : Nat :=
  val * num / denom

/-- `gst_util_uint64_scale val num denom = val * num / denom`, the
full-`guint64` variant; exact on `Nat`. -/
def gst_util_uint64_scale (val num denom : Nat) : Nat :=
  val * num / denom

/-- Reduction of a signed 64-bit quantity back to an unsigned 64-bit value,
as happens in C when a `gint64` is added to a `guint64`. -/
def wrap64 (x : Int) : Nat := (x % (18446744073709551616 : Int)).toNat

/-- Ring-buffer format spec fields the sink reads
(`GstRingBufferSpec`): `rate` in Hz, `bytes_per_sample`, `segsize` in
bytes, and `latency_time` in microseconds. -/
structure RingBufferSpec where
  rate : Nat
  bytes_per_sample : Nat
  segsize : Nat
  latency_time : Nat
deriving DecidableEq

/-- The ring-buffer state observable by the sink: the acquired and
flushing flags, the format spec, `samples_per_seg`, and the `segdone` /
`segbase` segment counters (C `gint`). -/
structure GstRingBuffer where
  acquired : Bool
  flushing : Bool
  spec : RingBufferSpec
  samples_per_seg : Nat
  segdone : Int
  segbase : Int
deriving DecidableEq

/-- Calibration of the provided audio clock,
`(cinternal, cexternal, crate_num, crate_denom)`, all `GstClockTime`. -/
structure Calibration where
  cinternal : Nat
  cexternal : Nat
  crate_num : Nat
  crate_denom : Nat
deriving DecidableEq

/-- The clock slaving methods (`GstBaseAudioSinkSlaveMethod`). -/
inductive SlaveMethod where
  | resample
  | skew
  | noSlaving
deriving DecidableEq

/-- The sink state touched by the embedded code paths: the (possibly
absent) ring buffer, the renderer fields `next_sample` (`-1` sentinel
modelled as `none`) and `last_align`, the private fields `avg_skew`
(`-1` marks the first observation after a resync, as in the C test),
`us_latency` and `slave_method`, and the provided clock's calibration. -/
structure GstBaseAudioSink where
  ringbuffer : Option GstRingBuffer
  next_sample : Option Nat
  last_align : Int
  avg_skew : Int
  us_latency : Nat
  slave_method : SlaveMethod
  calib : Calibration
deriving DecidableEq

/-- `gst_base_audio_sink_get_time`: the provided clock's time function.
Returns `none` when there is no ring buffer or the configured rate is 0;
otherwise the processed-samples count minus the device delay (clamped at
zero), scaled to nanoseconds, plus the upstream latency.  `samples_done`
and `delay` are the ring-buffer queries, passed as oracle inputs. -/
def gst_base_audio_sink_get_time (sink : GstBaseAudioSink)
    (samples_done : Nat) (delay : Nat) : Option Nat :=
  match sink.ringbuffer with
  | none => none
  | some rb =>
    if rb.spec.rate = 0 then none
    else
      let samples := if samples_done ≥ delay then samples_done - delay else 0
      some (gst_util_uint64_scale_int samples GST_SECOND rb.spec.rate
        + sink.us_latency)

/-- `gst_base_audio_sink_get_offset`: fallback sample position for the
no-timestamp and no-sync paths.  Starts from `next_sample` (or 0 when
unset) and, when the write segment lies behind the device's processed
segments, jumps to the next playable segment boundary. -/
def gst_base_audio_sink_get_offset (next_sample : Option Nat)
    (rb : GstRingBuffer) : Nat :=
  let sample : Nat := match next_sample with
    | none => 0
    | some s => s
  let sps : Nat := rb.samples_per_seg
  let writeseg : Int := ((sample / sps : Nat) : Int)
  let segdone : Int := rb.segdone - rb.segbase
  let diff : Int := writeseg - segdone
  if diff < 0 then ((segdone + 1) * (sps : Int)).toNat else sample

/-- `clock_convert_external`: saturating affine map from the external
(reference) clock domain to the internal clock domain, followed by a
saturating subtraction of the upstream latency. -/
def clock_convert_external (external cinternal cexternal crate_num
    crate_denom us_latency : Nat) : Nat :=
  let e : Nat :=
    if external ≥ cexternal then
      gst_util_uint64_scale (external - cexternal) crate_denom crate_num
        + cinternal
    else
      let d := gst_util_uint64_scale (cexternal - external) crate_denom
        crate_num
      if cinternal > d then cinternal - d else 0
  if e > us_latency then e - us_latency else 0

/-- The event types handled by `gst_base_audio_sink_event`. -/
inductive GstEvent where
  | flushStart
  | flushStop
  | eos
  | newSegment
deriving DecidableEq

/-- State effect of `gst_base_audio_sink_drain` (called on EOS): when a
ring buffer with a nonzero rate is present, the EOS wait completes and
`next_sample` is reset; the actual waiting is external. -/
def gst_base_audio_sink_drain (sink : GstBaseAudioSink) : GstBaseAudioSink :=
  match sink.ringbuffer with
  | none => sink
  | some rb =>
    if rb.spec.rate = 0 then sink
    else { sink with next_sample := none }

/-- `gst_base_audio_sink_event`: flush-start raises the ring buffer's
flushing flag; flush-stop resets `avg_skew` and `next_sample` and clears
the flushing flag; EOS drains; new-segment only reads the rate. -/
def gst_base_audio_sink_event (sink : GstBaseAudioSink) (event : GstEvent) :
    GstBaseAudioSink :=
  match event with
  | .flushStart =>
    { sink with ringbuffer :=
        sink.ringbuffer.map (fun rb => { rb with flushing := true }) }
  | .flushStop =>
    { sink with
        avg_skew := -1
        next_sample := none
        ringbuffer :=
          sink.ringbuffer.map (fun rb => { rb with flushing := false }) }
  | .eos => gst_base_audio_sink_drain sink
  | .newSegment => sink

/-- `gst_base_audio_sink_none_slaving`: apply the calibration conversion
to both times, do no other slaving. -/
def gst_base_audio_sink_none_slaving (sink : GstBaseAudioSink)
    (render_start render_stop : Nat) : Nat × Nat :=
  let c := sink.calib
  (clock_convert_external render_start c.cinternal c.cexternal c.crate_num
      c.crate_denom sink.us_latency,
   clock_convert_external render_stop c.cinternal c.cexternal c.crate_num
      c.crate_denom sink.us_latency)

/-- `gst_base_audio_sink_resample_slaving`: convert both times using the
calibration's rate; a stored `crate_num = 0` is replaced by rate `1/1`
before the conversion. -/
def gst_base_audio_sink_resample_slaving (sink : GstBaseAudioSink)
    (render_start render_stop : Nat) : Nat × Nat :=
  let c := sink.calib
  let crate_num := if c.crate_num = 0 then 1 else c.crate_num
  let crate_denom := if c.crate_num = 0 then 1 else c.crate_denom
  (clock_convert_external render_start c.cinternal c.cexternal crate_num
      crate_denom sink.us_latency,
   clock_convert_external render_stop c.cinternal c.cexternal crate_num
      crate_denom sink.us_latency)

/-- `gst_base_audio_sink_skew_slaving`: observe the skew between the
reference clock (`etime`) and the internal clock (`itime`), update the
moving average, correct sustained drift by shifting `cexternal` one
segment duration and possibly forcing a resync, then convert both times
with the (possibly updated) calibration.  The stored rate is passed to
the conversion unchanged.  Returns the updated sink and the two
converted times. -/
def gst_base_audio_sink_skew_slaving (sink : GstBaseAudioSink)
    (spec : RingBufferSpec) (etime itime : Nat)
    (render_start render_stop : Nat) : GstBaseAudioSink × Nat × Nat :=
  let c := sink.calib
  let etime2 : Nat := if etime > c.cexternal then etime - c.cexternal else 0
  let itime2 : Nat := if itime > c.cinternal then itime - c.cinternal else 0
  let skew : Int := (itime2 : Int) - (etime2 : Int)
  let avg : Int :=
    if sink.avg_skew = -1 then skew
    else Int.tdiv (31 * sink.avg_skew + skew) 32
  let segtime : Int := (spec.latency_time : Int) * 1000
  let segtime2 : Int := Int.tdiv segtime 2
  let segtimeN : Nat := spec.latency_time * 1000
  let segsamples : Int := ((spec.segsize / spec.bytes_per_sample : Nat) : Int)
  let corrected : Int × Nat × Option Nat :=
    if avg > segtime2 then
      (avg - segtime,
       if c.cexternal > segtimeN then c.cexternal - segtimeN else 0,
       if sink.last_align < 0 ∨ sink.last_align > segsamples then none
       else sink.next_sample)
    else if avg < -segtime2 then
      (avg + segtime,
       c.cexternal + segtimeN,
       if sink.last_align > 0 ∨ -sink.last_align > segsamples then none
       else sink.next_sample)
    else (avg, c.cexternal, sink.next_sample)
  let cexternal2 := corrected.2.1
  ({ sink with
      avg_skew := corrected.1
      next_sample := corrected.2.2
      calib := { c with cexternal := cexternal2 } },
   clock_convert_external render_start c.cinternal cexternal2 c.crate_num
      c.crate_denom sink.us_latency,
   clock_convert_external render_stop c.cinternal cexternal2 c.crate_num
      c.crate_denom sink.us_latency)

/-- Flow results of the render path (`GstFlowReturn`): `ok`,
`notNegotiated` (wrong_state), `error` (wrong_size), `wrongState`
(stopping).  `starved` is a model artifact marking exhaustion of the
commit/preroll oracle trace; the C loop always has a next outcome. -/
inductive GstFlowReturn where
  | ok
  | notNegotiated
  | error
  | wrongState
  | starved
deriving DecidableEq

/-- An incoming buffer: its size in bytes, optional timestamp
(`GST_CLOCK_TIME_NONE` as `none`) and the DISCONT flag. -/
structure GstBuffer where
  size : Nat
  timestamp : Option Nat
  discont : Bool
deriving DecidableEq

/-- The pipeline segment as the render path reads it: clipping bounds and
the sign of the playback rate. -/
structure GstSegment where
  start : Nat
  stop : Option Nat
  rate_nonneg : Bool
deriving DecidableEq

/-- Modelled from the spec: `gst_segment_clip` (external to this file)
intersects the buffer interval with the segment bounds and reports `none`
when the intersection is empty (the buffer is entirely outside the
segment). -/
def gst_segment_clip (seg : GstSegment) (tstart tstop : Nat) :
    Option (Nat × Nat) :=
  match seg.stop with
  | some sstop =>
    if tstart ≥ sstop ∨ tstop ≤ seg.start then none
    else some (max tstart seg.start, min tstop sstop)
  | none =>
    if tstop ≤ seg.start then none
    else some (max tstart seg.start, tstop)

/-- Oracle inputs of one render call: presence of a pipeline clock, the
sync flag, whether that clock differs from the provided clock (`slaved`),
base time and configured latency, the running-time map of the current
segment, the two clock samples taken by skew slaving, and the outcome
traces of the commit calls (`written`, advanced `sample_offset`) and the
preroll waits (`true` = `GST_FLOW_OK`). -/
structure RenderEnv where
  has_clock : Bool
  sync : Bool
  slaved : Bool
  base_time : Nat
  latency : Nat
  toRunning : Nat → Nat
  etime : Nat
  itime : Nat
  commits : List (Nat × Nat)
  prerolls : List Bool

/-- The running-time / base-time / latency / slaving stage of render
(source lines 1107-1148): bring the clipped times to running time, add
base time and latency, then dispatch on `slaved` and the slave method.
Only skew slaving mutates the sink. -/
def render_times (sink : GstBaseAudioSink) (env : RenderEnv)
    (spec : RingBufferSpec) (time stop : Nat) :
    GstBaseAudioSink × Nat × Nat :=
  let render_start := env.toRunning time + env.base_time + env.latency
  let render_stop := env.toRunning stop + env.base_time + env.latency
  if env.slaved then
    match sink.slave_method with
    | .resample =>
      let r := gst_base_audio_sink_resample_slaving sink render_start
        render_stop
      (sink, r.1, r.2)
    | .skew =>
      gst_base_audio_sink_skew_slaving sink spec env.etime env.itime
        render_start render_stop
    | .noSlaving =>
      let r := gst_base_audio_sink_none_slaving sink render_start render_stop
      (sink, r.1, r.2)
  else
    let r := gst_base_audio_sink_none_slaving sink render_start render_stop
    (sink, r.1, r.2)

/-- The alignment stage of render (source lines 1156-1213), in sample
units.  With a DISCONT flag or no previous sample position, nothing is
touched.  Otherwise the offset of the first rendered sample is compared
against `next_sample`: within the tolerance the alignment difference is
added to `render_start` (and to `render_stop` unless the sink is slaved
in resample mode); beyond it the warning is emitted and `align = 0` is
used.  In both cases `last_align` is set to the `align` just used.
Returns `(last_align, render_start, render_stop, warned)`. -/
def render_align (spec : RingBufferSpec) (slaved : Bool)
    (method : SlaveMethod) (rate_nonneg : Bool) (next_sample : Option Nat)
    (discont : Bool) (last_align : Int) (render_start render_stop : Nat) :
    Int × Nat × Nat × Bool :=
  if discont then (last_align, render_start, render_stop, false)
  else
    match next_sample with
    | none => (last_align, render_start, render_stop, false)
    | some next =>
      let sample_offset := if rate_nonneg then render_start else render_stop
      let diff : Nat :=
        if sample_offset ≥ next then sample_offset - next
        else next - sample_offset
      let aligned : Int × Bool :=
        if diff < spec.rate / DIFF_TOLERANCE then
          (((next : Int) - (sample_offset : Int)), false)
        else (0, true)
      let align := aligned.1
      let rs2 := wrap64 ((render_start : Int) + align)
      if slaved ∧ method = SlaveMethod.resample then
        (align, rs2, render_stop, aligned.2)
      else
        (align, rs2, wrap64 ((render_stop : Int) + align), aligned.2)

/-- Outcome of the preparation phase of render: an early return (before
any commit) with its flow result, or the values handed to the commit
loop. -/
inductive PrepOutcome where
  | earlyReturn (flow : GstFlowReturn)
  | proceed (sink : GstBaseAudioSink) (render_start render_stop : Nat)
      (samples : Nat) (out_samples : Int) (warned : Bool)
deriving DecidableEq

/-- Everything `gst_base_audio_sink_render` does before the commit loop:
the acquired and size gates, the no-timestamp fast path, segment
clipping, the no-sync fast path, running-time conversion, slaving,
scaling to sample units, and alignment. -/
def render_prepare (sink : GstBaseAudioSink) (env : RenderEnv)
    (seg : GstSegment) (buf : GstBuffer) : PrepOutcome :=
  match sink.ringbuffer with
  | none => .earlyReturn .notNegotiated
  | some ringbuf =>
    if ¬ ringbuf.acquired then .earlyReturn .notNegotiated
    else
      let bps := ringbuf.spec.bytes_per_sample
      if buf.size % bps ≠ 0 then .earlyReturn .error
      else
        let samples := buf.size / bps
        let out_samples : Int := (samples : Int)
        match buf.timestamp with
        | none =>
          let render_start :=
            gst_base_audio_sink_get_offset sink.next_sample ringbuf
          .proceed sink render_start (render_start + samples) samples
            out_samples false
        | some time =>
          let stop := time + gst_util_uint64_scale_int samples GST_SECOND
            ringbuf.spec.rate
          match gst_segment_clip seg time stop with
          | none => .earlyReturn .ok
          | some (ctime, cstop) =>
            let d1 := ctime - time
            let samples1 :=
              if d1 > 0 then
                samples - gst_util_uint64_scale_int d1 ringbuf.spec.rate
                  GST_SECOND
              else samples
            let time1 := if d1 > 0 then ctime else time
            let d2 := stop - cstop
            let samples2 :=
              if d2 > 0 then
                samples1 - gst_util_uint64_scale_int d2 ringbuf.spec.rate
                  GST_SECOND
              else samples1
            let stop1 := if d2 > 0 then cstop else stop
            if ¬ (env.has_clock && env.sync) then
              let render_start :=
                gst_base_audio_sink_get_offset sink.next_sample ringbuf
              .proceed sink render_start (render_start + samples2) samples2
                out_samples false
            else
              let st := render_times sink env ringbuf.spec time1 stop1
              let rs2 := gst_util_uint64_scale_int st.2.1 ringbuf.spec.rate
                GST_SECOND
              let rt2 := gst_util_uint64_scale_int st.2.2 ringbuf.spec.rate
                GST_SECOND
              let al := render_align ringbuf.spec env.slaved
                st.1.slave_method seg.rate_nonneg st.1.next_sample
                buf.discont st.1.last_align rs2 rt2
              .proceed { st.1 with last_align := al.1 } al.2.1 al.2.2.1
                samples2 ((al.2.2.1 : Int) - (al.2.1 : Int)) al.2.2.2

/-- Outcome of the commit loop: interrupted and cancelled (`stopping`),
oracle trace exhausted (model artifact), or finished with the
alignability of the next buffer, the final advanced sample offset and
the list of commit calls made (each `(sample_offset, samples,
out_samples)`). -/
inductive LoopOutcome where
  | stopping (calls : List (Nat × Nat × Int))
  | starvedTrace (calls : List (Nat × Nat × Int))
  | finished (align_next : Bool) (sample_offset : Nat)
      (calls : List (Nat × Nat × Int))
deriving DecidableEq

/-- The commit loop of render (source lines 1229-1252): call commit;
when everything was written, stop; otherwise wait for preroll (a
cancelled wait aborts with `stopping`), mark the next buffer
non-alignable, and retry with the remaining samples at the advanced
offset. -/
def commitLoop : List (Nat × Nat) → List Bool → Nat → Nat → Int → Bool →
    List (Nat × Nat × Int) → LoopOutcome
  | [], _, _, _, _, _, acc => .starvedTrace acc.reverse
  | (written, offAfter) :: cs, ps, sample_offset, samples, out_samples,
      align_next, acc =>
    let acc2 := (sample_offset, samples, out_samples) :: acc
    if written = samples then .finished align_next offAfter acc2.reverse
    else
      match ps with
      | [] => .starvedTrace acc2.reverse
      | p :: ps2 =>
        if p then
          commitLoop cs ps2 offAfter (samples - written) out_samples false
            acc2
        else .stopping acc2.reverse

/-- Result of one render call: the flow result, the updated sink, whether
the sync-problems warning was emitted, and the commit calls made. -/
structure RenderResult where
  flow : GstFlowReturn
  sink : GstBaseAudioSink
  warned : Bool
  commitCalls : List (Nat × Nat × Int)
deriving DecidableEq

/-- `gst_base_audio_sink_render`: preparation, then the commit loop; on
completion `next_sample` becomes the post-commit sample offset, or `none`
when the loop was interrupted; a cancelled preroll wait returns the
stopping result. -/
def gst_base_audio_sink_render (sink : GstBaseAudioSink) (env : RenderEnv)
    (seg : GstSegment) (buf : GstBuffer) : RenderResult :=
  match render_prepare sink env seg buf with
  | .earlyReturn flow => ⟨flow, sink, false, []⟩
  | .proceed sink1 render_start render_stop samples out_samples warned =>
    let sample_offset := if seg.rate_nonneg then render_start else render_stop
    match commitLoop env.commits env.prerolls sample_offset samples
        out_samples true [] with
    | .stopping calls => ⟨.wrongState, sink1, warned, calls⟩
    | .starvedTrace calls => ⟨.starved, sink1, warned, calls⟩
    | .finished align_next offAfter calls =>
      ⟨.ok,
       { sink1 with next_sample :=
           if align_next then some offAfter else none },
       warned, calls⟩

/-! Helper lemmas -/

theorem wrap64_coe (n : Nat) (h : n < 18446744073709551616) :
    wrap64 (n : Int) = n := by
  unfold wrap64
  rw [Int.emod_eq_of_lt (by positivity) (by exact_mod_cast h)]
  simp

/-! Claim theorems -/

/-- Claim C4: for rnum > 0, `clock_convert_external` computes
`(ext − ce)·rden/rnum + ci` when `ext ≥ ce`, else `ci − (ce − ext)·rden/rnum`
clamped at 0, and then subtracts `us_lat` saturating at 0 (saturation is
`Nat` subtraction). -/
theorem C4_clock_convert_formula (ext ci ce rnum rden lat : Nat)
    (h : 0 < rnum) :
    clock_convert_external ext ci ce rnum rden lat =
      (if ext ≥ ce then (ext - ce) * rden / rnum + ci
       else ci - (ce - ext) * rden / rnum) - lat := by
  unfold clock_convert_external gst_util_uint64_scale
  by_cases h1 : ext ≥ ce
  · simp only [if_pos h1]
    split <;> omega
  · simp only [if_neg h1]
    split <;> split <;> omega

theorem C4_clock_convert_formula_witness :
    0 < 3 ∧ clock_convert_external 250 40 100 3 2 10 =
      (if (250 : Nat) ≥ 100 then (250 - 100) * 2 / 3 + 40
       else 40 - (100 - 250) * 2 / 3) - 10 :=
  ⟨by decide, C4_clock_convert_formula 250 40 100 3 2 10 (by decide)⟩

/-- Concrete state refuting claim C3: a ring buffer that is present with a
nonzero rate but released (`acquired = false`). -/
def c3rb : GstRingBuffer := ⟨false, false, ⟨44100, 4, 4096, 10000⟩, 1024, 0, 0⟩

def c3sink : GstBaseAudioSink := ⟨some c3rb, none, 0, 0, 0, .skew, ⟨0, 0, 1, 1⟩⟩

/-- Claim C3, counterexample: the time function checks only for a missing
ring buffer or a zero rate, not for the acquired flag.  With a present but
non-acquired ring buffer of nonzero rate it returns a value, while the
claim requires "no value ... when the ring buffer is not acquired". -/
theorem C3_counterexample :
    c3sink.ringbuffer.map GstRingBuffer.acquired = some false ∧
    gst_base_audio_sink_get_time c3sink 100 0 ≠ none := by decide

/-- Claim C3 (amended): the time function returns no value exactly when the
sink has no ring buffer or the configured rate is 0; otherwise it returns
`(samples_done − min(samples_done, delay))` scaled to nanoseconds at the
rate, plus `us_latency`. -/
theorem C3_get_time_amended (s : GstBaseAudioSink) (sd dl : Nat) :
    (gst_base_audio_sink_get_time s sd dl = none ↔
       s.ringbuffer = none ∨
         ∃ rb, s.ringbuffer = some rb ∧ rb.spec.rate = 0) ∧
    (∀ rb, s.ringbuffer = some rb → rb.spec.rate ≠ 0 →
       gst_base_audio_sink_get_time s sd dl =
         some ((sd - min sd dl) * GST_SECOND / rb.spec.rate
           + s.us_latency)) := by
  constructor
  · cases hrb : s.ringbuffer with
    | none => simp [gst_base_audio_sink_get_time, hrb]
    | some rb =>
      by_cases hr : rb.spec.rate = 0
      · simp [gst_base_audio_sink_get_time, hrb, hr]
      · simp [gst_base_audio_sink_get_time, hrb, hr]
  · intro rb hrb hr
    have h2 : (if sd ≥ dl then sd - dl else 0) = sd - min sd dl := by
      split <;> omega
    simp [gst_base_audio_sink_get_time, hrb, hr, gst_util_uint64_scale_int,
      h2]

theorem C3_get_time_amended_witness :
    gst_base_audio_sink_get_time c3sink 100 0 =
      some ((100 - min 100 0) * GST_SECOND / 44100 + 0) :=
  (C3_get_time_amended c3sink 100 0).2 c3rb rfl (by decide)

/-- Claim C6: between two reads of the provided clock with the same ring
buffer, `samples_done` non-decreasing, the delay growth bounded by the
newly consumed samples (device fill), and `us_latency` fixed, the second
value is greater than or equal to the first. -/
theorem C6_get_time_monotone (s : GstBaseAudioSink) (rb : GstRingBuffer)
    (sd1 dl1 sd2 dl2 t1 t2 : Nat)
    (hrb : s.ringbuffer = some rb) (hrate : rb.spec.rate ≠ 0)
    (hsd : sd1 ≤ sd2) (hdl : dl2 ≤ dl1 + (sd2 - sd1))
    (h1 : gst_base_audio_sink_get_time s sd1 dl1 = some t1)
    (h2 : gst_base_audio_sink_get_time s sd2 dl2 = some t2) :
    t1 ≤ t2 := by
  simp only [gst_base_audio_sink_get_time, hrb, if_neg hrate,
    gst_util_uint64_scale_int, Option.some.injEq] at h1 h2
  have key : (if sd1 ≥ dl1 then sd1 - dl1 else 0) ≤
      (if sd2 ≥ dl2 then sd2 - dl2 else 0) := by
    split <;> split <;> omega
  subst h1 h2
  exact Nat.add_le_add_right
    (Nat.div_le_div_right (Nat.mul_le_mul_right _ key)) _

theorem C6_get_time_monotone_witness :
    gst_base_audio_sink_get_time c3sink 100 30 = some (70 * GST_SECOND / 44100 + 0) ∧
    gst_base_audio_sink_get_time c3sink 150 60 = some (90 * GST_SECOND / 44100 + 0) ∧
    70 * GST_SECOND / 44100 + 0 ≤ 90 * GST_SECOND / 44100 + 0 := by
  refine ⟨by decide, by decide, ?_⟩
  exact C6_get_time_monotone c3sink c3rb 100 30 150 60 _ _ rfl (by decide)
    (by decide) (by decide) (by decide) (by decide)

/-- Claim C8: a flush-stop event resets `avg_skew` (to the `-1` resync
marker, the code's representation of "none"), clears `next_sample`,
lowers the ring buffer's flushing flag, and is idempotent. -/
theorem C8_flush_stop (s : GstBaseAudioSink) :
    (gst_base_audio_sink_event s .flushStop).avg_skew = -1 ∧
    (gst_base_audio_sink_event s .flushStop).next_sample = none ∧
    (gst_base_audio_sink_event s .flushStop).ringbuffer =
      s.ringbuffer.map (fun rb => { rb with flushing := false }) ∧
    gst_base_audio_sink_event (gst_base_audio_sink_event s .flushStop)
      .flushStop = gst_base_audio_sink_event s .flushStop := by
  refine ⟨rfl, rfl, rfl, ?_⟩
  cases hrb : s.ringbuffer <;> simp [gst_base_audio_sink_event, hrb]

/-- Claim C10: the fallback position from `get_offset` never lies in a
segment behind the device's already-processed segments: its segment index
is at least `segdone − segbase`. -/
theorem C10_get_offset_not_behind (next_sample : Option Nat)
    (rb : GstRingBuffer) (hsps : 0 < rb.samples_per_seg)
    (hseg : rb.segbase ≤ rb.segdone) :
    rb.segdone - rb.segbase ≤
      ((gst_base_audio_sink_get_offset next_sample rb /
        rb.samples_per_seg : Nat) : Int) := by
  unfold gst_base_audio_sink_get_offset
  set sample : Nat := (match next_sample with | none => 0 | some s => s)
    with hsample
  set sps : Nat := rb.samples_per_seg with hspsdef
  set sd : Int := rb.segdone - rb.segbase with hsd
  have hsd0 : 0 ≤ sd := by omega
  by_cases hdiff : ((sample / sps : Nat) : Int) - sd < 0
  · rw [if_pos hdiff]
    have hcast : (sd + 1) * (sps : Int) =
        (((sd + 1).toNat * sps : Nat) : Int) := by
      push_cast
      rw [Int.toNat_of_nonneg (by omega)]
    rw [hcast, Int.toNat_natCast, Nat.mul_div_cancel _ hsps]
    omega
  · rw [if_neg hdiff]
    omega

theorem C10_get_offset_not_behind_witness :
    (0 : Int) < 1024 ∧ (3 : Int) ≤ 7 ∧
    (5 : Int) - 3 ≤ ((gst_base_audio_sink_get_offset (some 1000)
      ⟨true, false, ⟨44100, 4, 4096, 10000⟩, 1024, 5, 3⟩ / 1024 : Nat) : Int) := by
  refine ⟨by decide, by decide, ?_⟩
  exact C10_get_offset_not_behind (some 1000)
    ⟨true, false, ⟨44100, 4, 4096, 10000⟩, 1024, 5, 3⟩ (by decide) (by decide)

/-- Claim C2: on each skew slaving invocation the skew is the difference
of the two normalised clock samples, the average is replaced on the first
observation after a resync and otherwise smoothed by `(31·avg + skew)/32`;
a positive drift beyond `segtime/2` shifts `cexternal` down by `segtime`
(saturating at 0), lowers the average by `segtime`, and clears
`next_sample` exactly when `last_align < 0` or `last_align >
samples_per_seg`; a negative drift beyond `−segtime/2` acts symmetrically;
otherwise the state is only updated with the new average. -/
theorem C2_skew_slaving (s : GstBaseAudioSink) (spec : RingBufferSpec)
    (etime itime rs rt : Nat) :
    let c := s.calib
    let etn : Nat := if etime > c.cexternal then etime - c.cexternal else 0
    let itn : Nat := if itime > c.cinternal then itime - c.cinternal else 0
    let skew : Int := (itn : Int) - (etn : Int)
    let avg : Int := if s.avg_skew = -1 then skew
      else Int.tdiv (31 * s.avg_skew + skew) 32
    let segtime : Int := (spec.latency_time : Int) * 1000
    let sps : Int := ((spec.segsize / spec.bytes_per_sample : Nat) : Int)
    let r := gst_base_audio_sink_skew_slaving s spec etime itime rs rt
    (Int.tdiv segtime 2 < avg →
      r.1.avg_skew = avg - segtime ∧
      r.1.calib.cexternal = s.calib.cexternal - spec.latency_time * 1000 ∧
      r.1.next_sample =
        if s.last_align < 0 ∨ sps < s.last_align then none
        else s.next_sample) ∧
    (avg < -Int.tdiv segtime 2 →
      r.1.avg_skew = avg + segtime ∧
      r.1.calib.cexternal = s.calib.cexternal + spec.latency_time * 1000 ∧
      r.1.next_sample =
        if 0 < s.last_align ∨ sps < -s.last_align then none
        else s.next_sample) ∧
    (-Int.tdiv segtime 2 ≤ avg → avg ≤ Int.tdiv segtime 2 →
      r.1.avg_skew = avg ∧
      r.1.calib.cexternal = s.calib.cexternal ∧
      r.1.next_sample = s.next_sample) := by
  have hst2 : 0 ≤ Int.tdiv ((spec.latency_time : Int) * 1000) 2 :=
    Int.tdiv_nonneg (by positivity) (by norm_num)
  simp only [gst_base_audio_sink_skew_slaving]
  refine ⟨fun hpos => ?_, fun hneg => ?_, fun hge hle => ?_⟩
  · rw [if_pos hpos]
    refine ⟨rfl, ?_, rfl⟩
    dsimp only
    split <;> omega
  · rw [if_neg (by omega), if_pos hneg]
    exact ⟨rfl, rfl, rfl⟩
  · rw [if_neg (by omega), if_neg (by omega)]
    exact ⟨rfl, rfl, rfl⟩

def w2spec : RingBufferSpec := ⟨44100, 4, 4096, 10⟩

def w2sink : GstBaseAudioSink := ⟨none, some 500, -3, -1, 0, .skew, ⟨0, 0, 1, 1⟩⟩

theorem C2_skew_slaving_witness :
    (gst_base_audio_sink_skew_slaving w2sink w2spec 0 20000 5 7).1.avg_skew
        = 10000 ∧
    (gst_base_audio_sink_skew_slaving w2sink w2spec 0 20000 5 7).1.next_sample
        = none := by
  obtain ⟨h1, -, -⟩ := C2_skew_slaving w2sink w2spec 0 20000 5 7
  have h2 := h1 (by decide)
  exact ⟨h2.1.trans (by decide), h2.2.2.trans (by decide)⟩

/-- Concrete state refuting claim C7: skew slaving with a stored
`crate_num = 0` in the calibration. -/
def c7sink : GstBaseAudioSink := ⟨none, none, 0, 0, 0, .skew, ⟨0, 1000, 0, 1⟩⟩

def c7spec : RingBufferSpec := ⟨44100, 4, 4096, 1000000⟩

/-- Claim C7, counterexample: skew slaving passes the stored rate to the
conversion unchanged, so with `crate_num = 0` the division by `crate_num`
is reached (in the `Nat` model it yields 0; in C it is an actual division
by zero inside `gst_util_uint64_scale`).  Had the rate been treated as
`1/1` as the claim states, the converted start time would be 1000, not
0. -/
theorem C7_counterexample :
    c7sink.calib.crate_num = 0 ∧
    (gst_base_audio_sink_skew_slaving c7sink c7spec 0 0 2000 3000).2.1 = 0 ∧
    clock_convert_external 2000 0 1000 1 1 0 = 1000 := by decide

/-- Claim C7 (amended): the `rate_num = 0 → treat as 1/1` guard lives in
resample slaving, not in skew slaving: when the stored `crate_num` is 0,
resample slaving converts both times at rate `1/1`. -/
theorem C7_resample_zero_rate (s : GstBaseAudioSink) (rs rt : Nat)
    (h : s.calib.crate_num = 0) :
    gst_base_audio_sink_resample_slaving s rs rt =
      (clock_convert_external rs s.calib.cinternal s.calib.cexternal 1 1
         s.us_latency,
       clock_convert_external rt s.calib.cinternal s.calib.cexternal 1 1
         s.us_latency) := by
  unfold gst_base_audio_sink_resample_slaving
  simp only [h, if_pos]

theorem C7_resample_zero_rate_witness :
    gst_base_audio_sink_resample_slaving c7sink 2000 3000 =
      (clock_convert_external 2000 0 1000 1 1 0,
       clock_convert_external 3000 0 1000 1 1 0) :=
  C7_resample_zero_rate c7sink 2000 3000 rfl

/-- Concrete render call refuting the last clause of claim C1: a buffer
whose offset is a full second away from `next_sample`. -/
def c1spec : RingBufferSpec := ⟨100, 1, 100, 10000⟩

def c1rb : GstRingBuffer := ⟨true, false, c1spec, 100, 0, 0⟩

def c1sink : GstBaseAudioSink :=
  ⟨some c1rb, some 1000, 7, 0, 0, .skew, ⟨0, 0, 1, 1⟩⟩

def c1seg : GstSegment := ⟨0, some 1000000000000, true⟩

def c1buf : GstBuffer := ⟨10, some 0, false⟩

def c1env : RenderEnv :=
  ⟨true, true, false, 0, 0, fun t => t, 0, 0, [(10, 10)], []⟩

/-- Claim C1, counterexample: when the diff exceeds the tolerance the
warning is emitted and the code then stores `last_align = align = 0`
unconditionally (source line 1203 sits after both branches), so
`last_align` is not left unchanged: here it drops from 7 to 0. -/
theorem C1_counterexample :
    c1sink.last_align = 7 ∧
    (gst_base_audio_sink_render c1sink c1env c1seg c1buf).warned = true ∧
    (gst_base_audio_sink_render c1sink c1env c1seg c1buf).sink.last_align
      = 0 := by decide

/-- Claim C1 (amended): on the alignment step of render (valid timestamp,
sync on, no DISCONT, `next_sample` set), with `so` the slaved render
start (stop for negative rate) and `diff = |so − next_sample|`: when
`diff < rate/2` the alignment `align = next_sample − so` is added to
`render_start` — which then equals `next_sample` for a forward rate —
and to `render_stop` unless the sink is slaved in resample mode, no
warning is emitted, and `last_align` is set to `align`; otherwise the
warning is emitted, `align = 0` is used, and `last_align` is set to 0
(not left unchanged).  The first returned component is the value stored
into `last_align`. -/
theorem C1_align_amended (spec : RingBufferSpec) (slaved : Bool)
    (method : SlaveMethod) (rate_nonneg : Bool) (la : Int)
    (next rs rt so diff : Nat) (align : Int)
    (hrs : rs < 18446744073709551616) (hrt : rt < 18446744073709551616)
    (hnext : next < 18446744073709551616)
    (hso : so = if rate_nonneg then rs else rt)
    (hdiff : diff = if so ≥ next then so - next else next - so)
    (halign : align = (next : Int) - (so : Int)) :
    (diff < spec.rate / 2 →
      render_align spec slaved method rate_nonneg (some next) false la rs rt =
        (align, wrap64 ((rs : Int) + align),
         if slaved ∧ method = SlaveMethod.resample then rt
         else wrap64 ((rt : Int) + align), false)) ∧
    (diff < spec.rate / 2 → rate_nonneg = true →
      (render_align spec slaved method rate_nonneg (some next) false la rs
        rt).2.1 = next) ∧
    (¬ diff < spec.rate / 2 →
      render_align spec slaved method rate_nonneg (some next) false la rs rt =
        (0, rs, rt, true)) := by
  subst hso
  subst hdiff
  subst halign
  unfold render_align DIFF_TOLERANCE
  simp only [Bool.false_eq_true, if_false]
  refine ⟨fun hlt => ?_, fun hlt hrn => ?_, fun hge => ?_⟩
  · rw [if_pos hlt]
    split <;> rfl
  · subst hrn
    rw [if_pos hlt]
    have he : ((rs : Int) + ((next : Int) - ((if true then rs else rt) : Nat)))
        = (next : Int) := by
      simp
    split <;> · dsimp only; rw [he, wrap64_coe next hnext]
  · rw [if_neg hge]
    have h0 : ∀ n : Nat, n < 18446744073709551616 →
        wrap64 ((n : Int) + 0) = n := by
      intro n hn
      rw [Int.add_zero, wrap64_coe n hn]
    split
    · dsimp only
      rw [h0 rs hrs]
    · dsimp only
      rw [h0 rs hrs, h0 rt hrt]

theorem C1_align_amended_witness :
    render_align c1spec false SlaveMethod.skew true (some 1000) false 7 990
      1090 = (10, 1000, 1100, false) ∧ (10 : Nat) < c1spec.rate / 2 := by
  have h := (C1_align_amended c1spec false SlaveMethod.skew true 7 1000 990
    1090 990 10 10 (by decide) (by decide) (by decide) (by decide)
    (by decide) (by decide)).1 (by decide)
  exact ⟨h.trans (by decide), by decide⟩

/-- Claim C9: every early rejection of render — missing or non-acquired
ring buffer (not-negotiated), a size that is not a multiple of the sample
size (wrong-size error), or a buffer clipped entirely outside the segment
(dropped with the ok result) — leaves the sink state (in particular
`next_sample`, `last_align`, `avg_skew`) unchanged, emits no warning, and
makes no commit call. -/
theorem C9_early_exits (s : GstBaseAudioSink) (env : RenderEnv)
    (seg : GstSegment) (buf : GstBuffer) :
    ((s.ringbuffer = none ∨
        ∃ rb, s.ringbuffer = some rb ∧ rb.acquired = false) →
      gst_base_audio_sink_render s env seg buf =
        ⟨.notNegotiated, s, false, []⟩) ∧
    (∀ rb, s.ringbuffer = some rb → rb.acquired = true →
      buf.size % rb.spec.bytes_per_sample ≠ 0 →
      gst_base_audio_sink_render s env seg buf = ⟨.error, s, false, []⟩) ∧
    (∀ rb t, s.ringbuffer = some rb → rb.acquired = true →
      buf.size % rb.spec.bytes_per_sample = 0 → buf.timestamp = some t →
      gst_segment_clip seg t (t + gst_util_uint64_scale_int
        (buf.size / rb.spec.bytes_per_sample) GST_SECOND rb.spec.rate)
        = none →
      gst_base_audio_sink_render s env seg buf = ⟨.ok, s, false, []⟩) := by
  refine ⟨fun h => ?_, fun rb hrb hacq hsz => ?_,
    fun rb t hrb hacq hsz hts hclip => ?_⟩
  · have hp : render_prepare s env seg buf = .earlyReturn .notNegotiated := by
      rcases h with hnone | ⟨rb, hrb, hacq⟩
      · simp [render_prepare, hnone]
      · simp [render_prepare, hrb, hacq]
    simp [gst_base_audio_sink_render, hp]
  · have hp : render_prepare s env seg buf = .earlyReturn .error := by
      simp [render_prepare, hrb, hacq, hsz]
    simp [gst_base_audio_sink_render, hp]
  · have hp : render_prepare s env seg buf = .earlyReturn .ok := by
      simp [render_prepare, hrb, hacq, hsz, hts, hclip]
    simp [gst_base_audio_sink_render, hp]

def w9sink : GstBaseAudioSink := ⟨none, none, 0, 0, 0, .skew, ⟨0, 0, 1, 1⟩⟩

def w9env : RenderEnv :=
  ⟨true, true, false, 0, 0, fun t => t, 0, 0, [], []⟩

theorem C9_early_exits_witness :
    gst_base_audio_sink_render w9sink w9env ⟨0, none, true⟩ ⟨10, none, false⟩
      = ⟨.notNegotiated, w9sink, false, []⟩ :=
  (C9_early_exits w9sink w9env ⟨0, none, true⟩ ⟨10, none, false⟩).1
    (Or.inl rfl)

/-- Claim C5: behaviour of the commit loop.  With the preparation phase
delivering `samples = smp` at the chosen offset: (1) when the first
commit writes all samples, render succeeds and `next_sample` becomes the
post-commit offset; (2) when a commit comes back short and the following
preroll wait is cancelled, render returns the stopping result; (3) when a
commit comes back short and the preroll wait succeeds, the remaining
samples are committed and `next_sample` is cleared, marking the next
buffer non-alignable. -/
theorem C5_commit_loop (s : GstBaseAudioSink) (env : RenderEnv)
    (seg : GstSegment) (buf : GstBuffer) (s1 : GstBaseAudioSink)
    (rs rt smp : Nat) (outS : Int) (w : Bool)
    (hprep : render_prepare s env seg buf = .proceed s1 rs rt smp outS w) :
    (∀ off rest, env.commits = (smp, off) :: rest →
      gst_base_audio_sink_render s env seg buf =
        ⟨.ok, { s1 with next_sample := some off }, w,
         [((if seg.rate_nonneg then rs else rt), smp, outS)]⟩) ∧
    (∀ w1 off rest ps, env.commits = (w1, off) :: rest → w1 ≠ smp →
      env.prerolls = false :: ps →
      (gst_base_audio_sink_render s env seg buf).flow = .wrongState) ∧
    (∀ w1 off1 off2 rest ps,
      env.commits = (w1, off1) :: (smp - w1, off2) :: rest →
      w1 ≠ smp → env.prerolls = true :: ps →
      gst_base_audio_sink_render s env seg buf =
        ⟨.ok, { s1 with next_sample := none }, w,
         [((if seg.rate_nonneg then rs else rt), smp, outS),
          (off1, smp - w1, outS)]⟩) := by
  refine ⟨fun off rest hc => ?_, fun w1 off rest ps hc hne hp => ?_,
    fun w1 off1 off2 rest ps hc hne hp => ?_⟩
  · simp [gst_base_audio_sink_render, hprep, hc, commitLoop]
  · simp [gst_base_audio_sink_render, hprep, hc, hp, commitLoop, hne]
  · simp [gst_base_audio_sink_render, hprep, hc, hp, commitLoop, hne]

def w5rb : GstRingBuffer := ⟨true, false, ⟨100, 1, 10, 10000⟩, 10, 0, 0⟩

def w5sink : GstBaseAudioSink := ⟨some w5rb, none, 0, 0, 0, .skew, ⟨0, 0, 1, 1⟩⟩

def w5env : RenderEnv :=
  ⟨true, true, false, 0, 0, fun t => t, 0, 0, [(10, 42)], []⟩

def w5seg : GstSegment := ⟨0, none, true⟩

def w5buf : GstBuffer := ⟨10, none, false⟩

theorem C5_commit_loop_witness :
    gst_base_audio_sink_render w5sink w5env w5seg w5buf =
      ⟨.ok, { w5sink with next_sample := some 42 }, false, [(0, 10, 10)]⟩ := by
  have h := (C5_commit_loop w5sink w5env w5seg w5buf w5sink 0 10 10 10 false
    (by decide)).1 42 [] rfl
  simpa [w5seg] using h
